import Mathlib

/-!
Shallow embedding of the Sahayak repository (voice medicine-ordering
assistant) and proofs about its wallet ledger, rules engine, intent
gating, medicine resolver, audio silence detection, execution
orchestrator and PII redaction.

Conventions of the embedding:
* Python `int` is modelled as `Int`; monetary amounts are in paise.
* Python `float` values (confidence scores, seconds, thresholds) are
  modelled as `ℚ`.  Every boundary compared against in the claims
  (0.85, 0.90, 1.5, 3.0) is such that the float comparison in the code
  and the rational comparison agree on all representable inputs, since
  no double lies strictly between the rational constant and its nearest
  double.
* The database state touched by `WalletLedger` is modelled as a single
  user row (`Option User`, `none` = user id not present) plus the
  append-only ledger list.  Exceptions are modelled with `Except`.
* `uuid4`-generated transaction ids are modelled as an explicit
  argument; freshness hypotheses replace the uniqueness of `uuid4`.
-/

namespace Sahayak

/-- Transaction types of `src/db/models.py` (`TransactionType`). -/
inductive TransactionType where
  | CREDIT
  | DEBIT
  | LOCK
  | UNLOCK
  | REFUND
deriving DecidableEq, Repr

/-- Ledger row of `src/db/models.py` (`LedgerEntry`), restricted to the
single modelled user (the `user_id` column is therefore omitted). -/
structure LedgerEntry where
  transaction_id : String
  amount : Int
  transaction_type : TransactionType
  reference_type : String := "ORDER"
  reference_id : Option String := none
  balance_after : Int
  description : String := ""
deriving DecidableEq, Repr

/-- User row of `src/db/models.py` (`User`), restricted to the two
balance columns the wallet code reads and writes. -/
structure User where
  current_balance : Int
  locked_balance : Int
deriving DecidableEq, Repr

/-- Database state seen by `WalletLedger`: the (single) user row, or
`none` when the user id does not exist, plus the ledger table. -/
structure WalletState where
  user : Option User
  ledger : List LedgerEntry
deriving DecidableEq, Repr

/-- Exceptions of `src/wallet/ledger.py`.  Message payloads are not
carried; `dbError` stands for the sqlalchemy errors raised by
`scalar_one` / `scalar_one_or_none` on a wrong row count. -/
inductive WalletErr where
  | walletError
  | insufficientBalance
  | transactionLimit
  | dbError
deriving DecidableEq, Repr

/-- `Settings.MAX_TRANSACTION_AMOUNT` (`src/config/settings.py`): the
hard cap in rupees. -/
def MAX_TRANSACTION_AMOUNT : Int := 2000

/-- `WalletLedger.max_transaction`: the hard cap converted to paise. -/
def max_transaction : Int := MAX_TRANSACTION_AMOUNT * 100

/-- `WalletLedger.check_and_lock` (`src/wallet/ledger.py` lines 68-138).
The fresh `uuid4` transaction id is passed in as `transaction_id`. -/
def check_and_lock (s : WalletState) (amount : Int) (transaction_id : String)
    (reference_id : String) (description : String := "Order payment") :
    Except WalletErr (WalletState × String) :=
  -- Rule 1: Hard cap check (before the user row is read)
  if amount > max_transaction then
    .error .transactionLimit
  else
    match s.user with
    | none => .error .walletError
    | some user =>
      let available := user.current_balance - user.locked_balance
      if available < amount then
        .error .insufficientBalance
      else
        let lock_entry : LedgerEntry :=
          { transaction_id := transaction_id
            amount := amount
            transaction_type := .LOCK
            reference_type := "ORDER"
            reference_id := some reference_id
            balance_after := user.current_balance
            description := "Lock for: " ++ description }
        .ok ({ user := some { user with locked_balance := user.locked_balance + amount }
               ledger := s.ledger ++ [lock_entry] }, transaction_id)

/-- The lock-entry lookup shared by `confirm_debit` and `auto_refund`:
`select(LedgerEntry).where(transaction_id, type == LOCK)` followed by
`scalar_one_or_none` (raises on more than one row). -/
def scalarOneOrNoneLock (ledger : List LedgerEntry) (transaction_id : String) :
    Except WalletErr (Option LedgerEntry) :=
  match ledger.filter (fun e =>
      e.transaction_id == transaction_id && e.transaction_type == TransactionType.LOCK) with
  | [] => .ok none
  | [e] => .ok (some e)
  | _ => .error .dbError

/-- `WalletLedger.confirm_debit` (`src/wallet/ledger.py` lines 140-200). -/
def confirm_debit (s : WalletState) (transaction_id : String) :
    Except WalletErr WalletState := do
  let lockOpt ← scalarOneOrNoneLock s.ledger transaction_id
  match lockOpt with
  | none => .error .walletError
  | some lock_entry =>
    match s.user with
    | none => .error .dbError   -- `scalar_one` on a missing row raises
    | some user =>
      let amount := lock_entry.amount
      let debit_entry : LedgerEntry :=
        { transaction_id := transaction_id
          amount := amount
          transaction_type := .DEBIT
          reference_type := lock_entry.reference_type
          reference_id := lock_entry.reference_id
          balance_after := user.current_balance - amount
          description := "Payment confirmed: " ++ lock_entry.description }
      .ok { user := some { user with
              current_balance := user.current_balance - amount
              locked_balance := user.locked_balance - amount }
            ledger := s.ledger ++ [debit_entry] }

/-- `WalletLedger.auto_refund` (`src/wallet/ledger.py` lines 202-263). -/
def auto_refund (s : WalletState) (transaction_id : String)
    (reason : String := "API execution failed") : Except WalletErr WalletState := do
  let lockOpt ← scalarOneOrNoneLock s.ledger transaction_id
  match lockOpt with
  | none => .error .walletError
  | some lock_entry =>
    match s.user with
    | none => .error .dbError
    | some user =>
      let amount := lock_entry.amount
      let refund_entry : LedgerEntry :=
        { transaction_id := transaction_id
          amount := amount
          transaction_type := .REFUND
          reference_type := lock_entry.reference_type
          reference_id := lock_entry.reference_id
          balance_after := user.current_balance   -- balance unchanged, just unlock
          description := "Auto-refund: " ++ reason }
      .ok { user := some { user with locked_balance := user.locked_balance - amount }
            ledger := s.ledger ++ [refund_entry] }

/-- `WalletLedger.get_balance` (`src/wallet/ledger.py` lines 50-66). -/
def get_balance (s : WalletState) : Except WalletErr (Int × Int) :=
  match s.user with
  | none => .error .walletError
  | some row => .ok (row.current_balance, row.locked_balance)

/-! ### Wallet rules engine (`WalletRulesEngine`, `src/wallet/ledger.py` lines 315-351) -/

/-- `WalletRulesEngine.max_single_transaction`. -/
def max_single_transaction : Int := MAX_TRANSACTION_AMOUNT * 100

/-- `WalletRulesEngine.daily_limit` (₹5000 in paise). -/
def daily_limit : Int := 5000 * 100

/-- Rendering of the Python f-string interpolation of `n/100` (a float)
for the non-negative paise values formatted in the rule messages:
shortest round-trip decimal, so `.0` for whole rupees, one digit for
multiples of ten paise, two digits otherwise. -/
def pyFloatStrDiv100 (n : Int) : String :=
  if n % 100 == 0 then toString (n / 100) ++ ".0"
  else if n % 10 == 0 then toString (n / 100) ++ "." ++ toString (n % 100 / 10)
  else toString (n / 100) ++ "." ++ (if n % 100 < 10 then "0" else "") ++ toString (n % 100)

/-- `WalletRulesEngine.validate_transaction`: pure rule check returning
`(is_valid, error_message)`; it performs no state mutation (the Lean
function type makes the absence of side effects structural). -/
def validate_transaction (amount current_balance locked_balance : Int)
    (daily_spent : Int := 0) : Bool × Option String :=
  -- Rule 1: Hard cap on single transaction
  if amount > max_single_transaction then
    (false, some ("Amount exceeds maximum of ₹" ++ toString MAX_TRANSACTION_AMOUNT))
  else
    -- Rule 2: Sufficient balance
    let available := current_balance - locked_balance
    if amount > available then
      (false, some ("Insufficient balance. Available: ₹" ++ pyFloatStrDiv100 available))
    -- Rule 3: Daily limit
    else if daily_spent + amount > daily_limit then
      (false, some ("Daily spending limit of ₹" ++ pyFloatStrDiv100 daily_limit ++
        " would be exceeded"))
    else (true, none)

/-! ### Substring containment (used to state properties of messages and
of the Python `in` operator on strings) -/

/-- Whether `needle` is an initial segment of `hay`. -/
def startsWithSub : List Char → List Char → Bool
  | _, [] => true
  | [], _ :: _ => false
  | c :: cs, d :: ds => c == d && startsWithSub cs ds

/-- Whether `needle` occurs contiguously inside `hay` (the semantics of
the Python `in` operator on strings). -/
def containsSub : List Char → List Char → Bool
  | [], needle => startsWithSub [] needle
  | c :: cs, needle => startsWithSub (c :: cs) needle || containsSub cs needle

/-- String version of `containsSub`. -/
def strContains (hay needle : String) : Bool :=
  containsSub hay.data needle.data

/-! ### Intent engine (`src/core/intent_engine.py`) -/

/-- `IntentType.UNKNOWN` (`src/config/constants.py`). -/
def IntentType.UNKNOWN : String := "UNKNOWN"

/-- `Settings.CONFIDENCE_THRESHOLD` (`src/config/settings.py` line 39). -/
def CONFIDENCE_THRESHOLD : ℚ := 0.85

/-- `Settings.SAFE_REFUSAL_THRESHOLD` (`src/config/settings.py` line 40). -/
def SAFE_REFUSAL_THRESHOLD : ℚ := 0.90

/-- `IntentSchema` (`src/core/intent_engine.py` lines 17-47); the
`raw_entities` dict is modelled as an association list whose values are
irrelevant to the claims. -/
structure IntentSchema where
  intent_type : String := "UNKNOWN"
  items : List String := []
  quantity : Option Int := none
  confidence_score : ℚ := 0.0
  urgency : String := "standard"
  clarification_needed : Option String := none
  raw_entities : List (String × String) := []
deriving DecidableEq, Repr

/-- `IntentEngine.needs_clarification` (`src/core/intent_engine.py`
lines 208-210). -/
def needs_clarification (intent : IntentSchema) : Bool :=
  decide (intent.confidence_score < CONFIDENCE_THRESHOLD)

/-- `IntentEngine.should_refuse` (`src/core/intent_engine.py`
lines 212-215). -/
def should_refuse (intent : IntentSchema) : Bool :=
  decide (intent.confidence_score < SAFE_REFUSAL_THRESHOLD) &&
    (intent.intent_type == IntentType.UNKNOWN)

/-- One row of the mock catalog dict in `MedicineResolver.resolve`. -/
structure CatalogItem where
  name : String
  sku : String
  price : Int
deriving DecidableEq, Repr

/-- The `medicine_map` dict of `MedicineResolver.resolve`
(`src/core/intent_engine.py` lines 228-239), in insertion order. -/
def medicine_map : List (String × CatalogItem) := [
  ("shelcal", ⟨"Shelcal 500", "SHELCAL500", 12000⟩),
  ("calcium", ⟨"Shelcal 500", "SHELCAL500", 12000⟩),
  ("atorvastatin", ⟨"Atorvastatin 10mg", "ATORVA10", 8500⟩),
  ("heart", ⟨"Atorvastatin 10mg", "ATORVA10", 8500⟩),
  ("metformin", ⟨"Metformin 500mg", "METFORM500", 4500⟩),
  ("sugar", ⟨"Metformin 500mg", "METFORM500", 4500⟩),
  ("crocin", ⟨"Crocin 500mg", "CROCIN500", 2500⟩),
  ("fever", ⟨"Crocin 500mg", "CROCIN500", 2500⟩),
  ("thyronorm", ⟨"Thyronorm 50mcg", "THYRONORM50", 11000⟩),
  ("thyroid", ⟨"Thyronorm 50mcg", "THYRONORM50", 11000⟩)]

/-- The dict appended per input name by `MedicineResolver.resolve`:
a matched entry carries the catalog fields plus `matched = True`
(and no `needs_clarification` key, modelled `none`); an unmatched entry
keeps the spoken name with `matched = False, needs_clarification =
True` (and no sku/price keys, modelled `none`). -/
structure ResolvedMedicine where
  name : String
  sku : Option String := none
  price : Option Int := none
  matched : Bool
  needs_clarification : Option Bool := none
deriving DecidableEq, Repr

/-- The body of the `for key, medicine in medicine_map.items()` loop of
`MedicineResolver.resolve` for one spoken name: first key that is a
substring of the lowercased name wins (`break`), else the unmatched
entry.  `Char.toLower` models Python `str.lower()` on these ASCII
keys. -/
def resolveOne (name : String) : ResolvedMedicine :=
  match medicine_map.find? (fun kv => containsSub (name.data.map Char.toLower) kv.1.data) with
  | some kv => { name := kv.2.name, sku := some kv.2.sku, price := some kv.2.price,
                 matched := true }
  | none => { name := name, matched := false, needs_clarification := some true }

/-- `MedicineResolver.resolve` (`src/core/intent_engine.py` lines
218-254).  The `user_id` argument and the stored db session are never
read by the source; the argument is kept to state user-independence. -/
def resolve (medicine_names : List String) (user_id : String) : List ResolvedMedicine :=
  match medicine_names with
  | [] => []
  | name :: rest => resolveOne name :: resolve rest user_id

/-- Specification predicate for Claim C10: the record produced for one
input name is either a matched catalog record (with sku and price, and
no clarification flag) or the unmatched record keeping the input name
with `matched = false` and `needs_clarification = true`. -/
def resolvedEntryOk (name : String) (e : ResolvedMedicine) : Prop :=
  (e.matched = true ∧ e.sku.isSome ∧ e.price.isSome ∧ e.needs_clarification = none) ∨
  (e.name = name ∧ e.matched = false ∧ e.sku = none ∧ e.price = none ∧
    e.needs_clarification = some true)

/-! ### Audio buffer and silence detection (`src/utils/audio_buffer.py`) -/

/-- Signed 16-bit value of two little-endian bytes, as read by
`np.frombuffer(chunk, dtype=np.int16)`. -/
def toSigned16 (n : Nat) : Int :=
  if n < 32768 then (n : Int) else (n : Int) - 65536

/-- `np.frombuffer(chunk, dtype=np.int16)` on an even-length byte list
(byte values `< 256`). -/
def decodeInt16 : List Nat → List Int
  | b0 :: b1 :: rest => toSigned16 (b0 % 256 + 256 * (b1 % 256)) :: decodeInt16 rest
  | _ => []

/-- Signed 8-bit view of one byte (`dtype=np.int8`). -/
def toSigned8 (n : Nat) : Int :=
  if n % 256 < 128 then ((n % 256 : Nat) : Int) else ((n % 256 : Nat) : Int) - 256

/-- `np.frombuffer(chunk, dtype=np.int8)`. -/
def decodeInt8 (chunk : List Nat) : List Int := chunk.map toSigned8

/-- `np.mean(normalized ** 2)` where
`normalized = np.abs(samples.astype(float) / max_val)`; meaningful only
for nonempty sample lists (numpy yields NaN on an empty mean, which the
caller handles separately). -/
def meanSqNormalized (samples : List Int) (max_val : ℚ) : ℚ :=
  (samples.map (fun v => (|(v : ℚ)| / max_val) ^ 2)).sum / samples.length

/-- `AudioBuffer` (`src/utils/audio_buffer.py` lines 14-105); the
`start_time` wall-clock field is not used by `is_silence` and is
omitted. -/
structure AudioBuffer where
  sample_rate : Nat := 8000
  sample_width : Nat := 2
  channels : Nat := 1
  silence_threshold : ℚ := 0.02
  chunks : List (List Nat) := []
  total_samples : Nat := 0
deriving Repr

/-- `AudioBuffer.is_silence` (`src/utils/audio_buffer.py` lines 44-74).
The whole body of the source is wrapped in `try/except: return False`;
the only failing operation on a byte input is `np.frombuffer` on a
buffer whose size is not a multiple of the element size, modelled by
the explicit odd-length branch.  `np.mean` of an empty array is NaN and
`NaN < t` is False, modelled by the empty branch.  The comparison
`rms < t` with `rms = sqrt(m)`, `m ≥ 0` is expressed inside ℚ as
`0 ≤ t ∧ m < t ^ 2`, which is equivalent for every `t`. -/
def AudioBuffer.is_silence (b : AudioBuffer) (chunk : List Nat)
    (threshold : Option ℚ := none) : Bool :=
  -- `threshold = threshold or self.silence_threshold` (Python `or`:
  -- a supplied 0.0 is falsy and falls back to the stored default)
  let t := match threshold with
    | some x => if x = 0 then b.silence_threshold else x
    | none => b.silence_threshold
  if b.sample_width = 2 then
    if chunk.length % 2 ≠ 0 then false   -- np.frombuffer raises; except → False
    else
      let samples := decodeInt16 chunk
      if samples.isEmpty then false      -- mean of empty is NaN; NaN < t is False
      else decide (0 ≤ t ∧ meanSqNormalized samples 32768 < t ^ 2)
  else
    let samples := decodeInt8 chunk
    if samples.isEmpty then false
    else decide (0 ≤ t ∧ meanSqNormalized samples 128 < t ^ 2)

/-- `SilenceDetector` (`src/utils/audio_buffer.py` lines 108-179):
configuration plus mutable state (`silence_start`, `speech_detected`).
Wall-clock `datetime.now()` readings are modelled as the rational `now`
argument of `process_chunk`. -/
structure SilenceDetector where
  min_silence_duration : ℚ := 1.5
  max_pause_duration : ℚ := 3.0
  sample_rate : Nat := 8000
  silence_start : Option ℚ := none
  speech_detected : Bool := false
deriving Repr

/-- The dict returned by `SilenceDetector.process_chunk`. -/
structure ChunkDecision where
  is_complete : Bool
  silence_duration : ℚ
  should_prompt : Bool
deriving Repr

/-- `SilenceDetector.process_chunk` (`src/utils/audio_buffer.py` lines
126-174), returning the updated detector state and the decision dict. -/
def SilenceDetector.process_chunk (d : SilenceDetector) (now : ℚ) (is_silence : Bool) :
    SilenceDetector × ChunkDecision :=
  if is_silence then
    let start := d.silence_start.getD now      -- set silence_start to now if None
    let d' := { d with silence_start := some start }
    let silence_duration := now - start
    -- User finished speaking (min_silence_duration of silence after speech)
    if d.speech_detected = true ∧ silence_duration ≥ d.min_silence_duration then
      (d', ⟨true, silence_duration, false⟩)
    -- Long pause - might need to prompt
    else if silence_duration ≥ d.max_pause_duration then
      (d', ⟨false, silence_duration, true⟩)
    else
      (d', ⟨false, silence_duration, false⟩)
  else
    -- Speech detected
    ({ d with speech_detected := true, silence_start := none }, ⟨false, 0, false⟩)

/-- A detector in its freshly constructed state, with the default
durations of the source constructor. -/
def defaultDetector : SilenceDetector := {}

/-- Feeding a timed chunk sequence through the stateful detector. -/
def runDetector (d : SilenceDetector) : List (ℚ × Bool) → SilenceDetector × List ChunkDecision
  | [] => (d, [])
  | (t, sil) :: rest =>
    let step := d.process_chunk t sil
    let next := runDetector step.1 rest
    (next.1, step.2 :: next.2)

/-- The evolution of the `silence_start` field for one sample. -/
def startStep (s : Option ℚ) (p : ℚ × Bool) : Option ℚ :=
  if p.2 then some (s.getD p.1) else none

/-- The evolution of the `silence_start` field along a trace. -/
def startFold (s : Option ℚ) (tr : List (ℚ × Bool)) : Option ℚ :=
  tr.foldl startStep s

/-! ### Execution orchestrator (`src/core/orchestrator.py`) -/

/-- Outcome of `MockPharmacyAdapter.place_order` as seen by the
orchestrator: either a returned dict (with its `success`, `order_id`
and `error` keys) or a raised exception. -/
inductive PharmacyOutcome where
  | result (success : Bool) (order_id : Option String) (error : Option String)
  | raises (msg : String)
deriving DecidableEq, Repr

/-- `OrchestratorResult` (`src/core/orchestrator.py` lines 23-32); the
`voice_response` template string is omitted from the model (the claims
quantify only over the structured fields). -/
structure OrchestratorResult where
  success : Bool
  order_id : Option String := none
  new_balance : Option Int := none
  requires_confirmation : Bool := false
  error : Option String := none
deriving DecidableEq, Repr

/-- The `except Exception` handler of `execute_confirmed_order`:
`auto_refund` the locked amount with the failure reason and return a
failure result.  The third component of the return value records the
transaction ids passed to `auto_refund`, instrumenting the refund
calls. -/
def orderFailurePath (st : WalletState) (transaction_id reason : String) :
    Except WalletErr (OrchestratorResult × WalletState × List String) :=
  match auto_refund st transaction_id reason with
  | .ok st2 => .ok ({ success := false, error := some reason }, st2, [transaction_id])
  | .error e => .error e

/-- `ExecutionOrchestrator.execute_confirmed_order`
(`src/core/orchestrator.py` lines 212-323) acting on the wallet state.
The `Order` db row and call-log events are bookkeeping outside the
wallet and are not modelled; the fresh `uuid4` lock transaction id is
the `transaction_id` argument.  Only `InsufficientBalanceError` is
caught around the lock; every exception inside the pharmacy/debit
`try` block (a falsy `success` key raises, and `confirm_debit` /
`get_balance` failures are caught too) takes the refund path. -/
def execute_confirmed_order (s : WalletState) (total_price : Int)
    (transaction_id reference_id order_number : String) (pharmacy : PharmacyOutcome) :
    Except WalletErr (OrchestratorResult × WalletState × List String) :=
  match check_and_lock s total_price transaction_id reference_id
      ("Order " ++ order_number) with
  | .error .insufficientBalance =>
    .ok ({ success := false, error := some "insufficient balance" }, s, [])
  | .error e => .error e
  | .ok (s1, tid) =>
    match pharmacy with
    | .result true _ _ =>
      match confirm_debit s1 tid with
      | .error _ => orderFailurePath s1 tid "wallet error"
      | .ok s2 =>
        match get_balance s2 with
        | .error _ => orderFailurePath s2 tid "wallet error"
        | .ok (new_balance, _) =>
          .ok ({ success := true, order_id := some order_number,
                 new_balance := some new_balance }, s2, [])
    | .result false _ err =>
      orderFailurePath s1 tid (err.getD "Unknown pharmacy error")
    | .raises msg => orderFailurePath s1 tid msg

/-! ### PII redaction (`PIIRedactor`, `src/utils/privacy.py`)

A small backtracking matcher for the five fixed regex patterns of
`PIIRedactor.__init__`, with Python `re` semantics restricted to the
constructs those patterns use: character classes, `?` (greedy),
`{n}`, `+` / `{n,}` (greedy) on a class, and the word boundary of the
pincode pattern.  Classes are ASCII, as in the source patterns. -/

/-- Regular-expression fragments used by the source patterns. -/
inductive RE where
  | eps
  | cls (p : Char → Bool)
  | seq (a b : RE)
  | opt (r : RE)
  | repExact (p : Char → Bool) (n : Nat)
  | repAtLeast (p : Char → Bool) (n : Nat)

/-- Exactly `n` characters of class `p`. -/
def matchExact (p : Char → Bool) : Nat → List Char → Option (List Char)
  | 0, s => some s
  | _ + 1, [] => none
  | n + 1, c :: rest => if p c then matchExact p n rest else none

/-- All ways a pattern can match a prefix of `s`, as the list of
remaining suffixes in the backtracking preference order of the Python
`re` engine (greedy quantifiers first). -/
def remainders : RE → List Char → List (List Char)
  | .eps, s => [s]
  | .cls _, [] => []
  | .cls p, c :: rest => if p c then [rest] else []
  | .seq a b, s => (remainders a s).flatMap (remainders b)
  | .opt r, s => remainders r s ++ [s]
  | .repExact p n, s =>
    match matchExact p n s with
    | some r => [r]
    | none => []
  | .repAtLeast p n, s =>
    let run := (s.takeWhile p).length
    if run < n then []
    else (List.range (run - n + 1)).map (fun k => s.drop (run - k))

/-- Whether the pattern matches starting at some position of `s`. -/
def hasMatch (pat : RE) : List Char → Bool
  | [] => !(remainders pat []).isEmpty
  | c :: rest => !(remainders pat (c :: rest)).isEmpty || hasMatch pat rest

/-- `re.sub` scan: at each position take the engine's preferred match
if any, emit the replacement and continue after it, else copy one
character.  Fuel-driven so that the kernel can evaluate it; the fuel
`s.length` never runs out because every step consumes at least one
character (none of the source patterns matches the empty string; the
defensive `else` copies one character if one ever did). -/
def gsubAux (pat : RE) (tok : List Char) : Nat → List Char → List Char
  | 0, s => s
  | _ + 1, [] => []
  | fuel + 1, c :: rest =>
    match (remainders pat (c :: rest)).head? with
    | some rem =>
      if rem.length < (c :: rest).length then tok ++ gsubAux pat tok fuel rem
      else c :: gsubAux pat tok fuel rest
    | none => c :: gsubAux pat tok fuel rest

/-- `re.sub(pattern, token, s)` for the source patterns. -/
def gsub (pat : RE) (tok : String) (s : List Char) : List Char :=
  gsubAux pat tok.data s.length s

/-- `\d` (ASCII). -/
def isDigitChar (c : Char) : Bool := '0' ≤ c && c ≤ '9'

/-- `[A-Z]`. -/
def isUpperAZ (c : Char) : Bool := 'A' ≤ c && c ≤ 'Z'

/-- `[a-z]`. -/
def isLowerAZ (c : Char) : Bool := 'a' ≤ c && c ≤ 'z'

/-- `[a-zA-Z]`. -/
def isAlphaAZ (c : Char) : Bool := isLowerAZ c || isUpperAZ c

/-- `\s` (ASCII whitespace). -/
def isSpaceChar (c : Char) : Bool :=
  c == ' ' || c == '\t' || c == '\n' || c == '\r' || c == '\x0b' || c == '\x0c'

/-- `[-\s]`. -/
def isDashSpace (c : Char) : Bool := c == '-' || isSpaceChar c

/-- `[a-zA-Z0-9._%+-]`. -/
def isEmailLocal (c : Char) : Bool :=
  isAlphaAZ c || isDigitChar c || c == '.' || c == '_' || c == '%' || c == '+' || c == '-'

/-- `[a-zA-Z0-9.-]`. -/
def isEmailDomain (c : Char) : Bool :=
  isAlphaAZ c || isDigitChar c || c == '.' || c == '-'

/-- `\w` (ASCII), for the `\b` boundaries of the pincode pattern. -/
def isWordChar (c : Char) : Bool := isAlphaAZ c || isDigitChar c || c == '_'

/-- Concatenation of a pattern list. -/
def seqL (rs : List RE) : RE := rs.foldr RE.seq RE.eps

/-- `self.patterns["phone"] = r"\+?91?[-\s]?\d{10}"`. -/
def phonePattern : RE :=
  seqL [.opt (.cls (fun c => c == '+')), .cls (fun c => c == '9'),
        .opt (.cls (fun c => c == '1')), .opt (.cls isDashSpace),
        .repExact isDigitChar 10]

/-- `self.patterns["aadhaar"] = r"\d{4}[-\s]?\d{4}[-\s]?\d{4}"`. -/
def aadhaarPattern : RE :=
  seqL [.repExact isDigitChar 4, .opt (.cls isDashSpace),
        .repExact isDigitChar 4, .opt (.cls isDashSpace),
        .repExact isDigitChar 4]

/-- `self.patterns["pan"] = r"[A-Z]{5}\d{4}[A-Z]"`. -/
def panPattern : RE :=
  seqL [.repExact isUpperAZ 5, .repExact isDigitChar 4, .cls isUpperAZ]

/-- `self.patterns["email"] = r"[a-zA-Z0-9._%+-]+@[a-zA-Z0-9.-]+\.[a-zA-Z]{2,}"`. -/
def emailPattern : RE :=
  seqL [.repAtLeast isEmailLocal 1, .cls (fun c => c == '@'),
        .repAtLeast isEmailDomain 1, .cls (fun c => c == '.'),
        .repAtLeast isAlphaAZ 2]

/-- `self.patterns["pincode"] = r"\b\d{6}\b"` matching at position `i`:
six digits with word boundaries on both sides. -/
def pincodeMatchAt (s : List Char) (i : Nat) : Bool :=
  let seg := (s.drop i).take 6
  seg.length == 6 && seg.all isDigitChar &&
  (i == 0 || !(isWordChar (s.getD (i - 1) ' '))) &&
  (!(isWordChar (s.getD (i + 6) ' ')))

/-- Whether the pincode pattern matches anywhere in `s`. -/
def hasPincodeMatch (s : List Char) : Bool :=
  (List.range (s.length + 1)).any (fun i => pincodeMatchAt s i)

/-- `PIIRedactor.redact` (`src/utils/privacy.py` lines 30-71): applies,
in order, the phone, aadhaar, PAN and email substitutions.  The
`pincode` entry of `self.patterns` has no corresponding `re.sub` call
in the method body. -/
def redact (text : String) : String :=
  ⟨gsub emailPattern "[EMAIL_REDACTED]"
    (gsub panPattern "[PAN_REDACTED]"
      (gsub aadhaarPattern "[AADHAAR_REDACTED]"
        (gsub phonePattern "[PHONE_REDACTED]" text.data)))⟩

/-! ### Lemmas about the ledger operations -/

/-- A ledger containing no entry with the given transaction id
contributes nothing to the lock lookup filter. -/
theorem filter_lock_of_fresh (L : List LedgerEntry) (txn : String)
    (hfresh : ∀ e ∈ L, e.transaction_id ≠ txn) :
    L.filter (fun e =>
      e.transaction_id == txn && e.transaction_type == TransactionType.LOCK) = [] := by
  apply List.filter_eq_nil_iff.mpr
  intro e he
  simp only [Bool.and_eq_true, beq_iff_eq, not_and]
  intro h
  exact absurd h (hfresh e he)

/-!
### Claim theorems about the wallet ledger and rules engine
-/

/-- Claim C1: wallet conservation across lock/debit/refund.  For a user
row with `current_balance = C`, `locked_balance = 0`, a fresh
transaction id, and an amount `A ≤ C` within the ₹2000 cap:
`check_and_lock` yields `locked = A, current = C`; a subsequent
`confirm_debit` on the returned id yields `current = C - A, locked = 0`;
and, starting over from the locked state, `auto_refund` on that id
yields `current = C, locked = 0`. -/
theorem wallet_lock_debit_refund_conservation
    (C A : Int) (L : List LedgerEntry) (txn rid desc reason : String)
    (hfresh : ∀ e ∈ L, e.transaction_id ≠ txn)
    (hA : A ≤ C) (hcap : A ≤ max_transaction) :
    ∃ s1 s2 s3 : WalletState,
      check_and_lock ⟨some ⟨C, 0⟩, L⟩ A txn rid desc = .ok (s1, txn) ∧
      s1.user = some ⟨C, A⟩ ∧
      confirm_debit s1 txn = .ok s2 ∧
      s2.user = some ⟨C - A, 0⟩ ∧
      auto_refund s1 txn reason = .ok s3 ∧
      s3.user = some ⟨C, 0⟩ := by
  have hlock : check_and_lock ⟨some ⟨C, 0⟩, L⟩ A txn rid desc =
      .ok (⟨some ⟨C, 0 + A⟩,
        L ++ [⟨txn, A, .LOCK, "ORDER", some rid, C, "Lock for: " ++ desc⟩]⟩, txn) := by
    unfold check_and_lock
    rw [if_neg (not_lt.mpr hcap)]
    dsimp only
    rw [if_neg (show ¬(C - 0 < A) by omega)]
  have hfilter : (L ++ [(⟨txn, A, .LOCK, "ORDER", some rid, C,
        "Lock for: " ++ desc⟩ : LedgerEntry)]).filter
      (fun e => e.transaction_id == txn && e.transaction_type == TransactionType.LOCK) =
      [⟨txn, A, .LOCK, "ORDER", some rid, C, "Lock for: " ++ desc⟩] := by
    rw [List.filter_append, filter_lock_of_fresh L txn hfresh]
    simp
  have hdebit : confirm_debit ⟨some ⟨C, 0 + A⟩,
        L ++ [⟨txn, A, .LOCK, "ORDER", some rid, C, "Lock for: " ++ desc⟩]⟩ txn =
      .ok ⟨some ⟨C - A, 0 + A - A⟩,
        (L ++ [⟨txn, A, .LOCK, "ORDER", some rid, C, "Lock for: " ++ desc⟩]) ++
          [⟨txn, A, .DEBIT, "ORDER", some rid, C - A,
            "Payment confirmed: " ++ ("Lock for: " ++ desc)⟩]⟩ := by
    unfold confirm_debit scalarOneOrNoneLock
    dsimp only
    rw [hfilter]
    rfl
  have hrefund : auto_refund ⟨some ⟨C, 0 + A⟩,
        L ++ [⟨txn, A, .LOCK, "ORDER", some rid, C, "Lock for: " ++ desc⟩]⟩ txn reason =
      .ok ⟨some ⟨C, 0 + A - A⟩,
        (L ++ [⟨txn, A, .LOCK, "ORDER", some rid, C, "Lock for: " ++ desc⟩]) ++
          [⟨txn, A, .REFUND, "ORDER", some rid, C, "Auto-refund: " ++ reason⟩]⟩ := by
    unfold auto_refund scalarOneOrNoneLock
    dsimp only
    rw [hfilter]
    rfl
  refine ⟨_, _, _, hlock, ?_, hdebit, ?_, hrefund, ?_⟩
  · simp
  · simp
  · simp

/-- Witness for Claim C1 at a concrete instance (C = ₹1000, A = ₹50). -/
theorem wallet_lock_debit_refund_conservation_witness :
    ∃ s1 s2 s3 : WalletState,
      check_and_lock ⟨some ⟨100000, 0⟩, []⟩ 5000 "t1" "r" "d" = .ok (s1, "t1") ∧
      s1.user = some ⟨100000, 5000⟩ ∧
      confirm_debit s1 "t1" = .ok s2 ∧
      s2.user = some ⟨100000 - 5000, 0⟩ ∧
      auto_refund s1 "t1" "x" = .ok s3 ∧
      s3.user = some ⟨100000, 0⟩ :=
  wallet_lock_debit_refund_conservation 100000 5000 [] "t1" "r" "d" "x"
    (by simp) (by decide) (by decide)

/-- Claim C3: hard-cap precedence.  For any wallet state (any balances,
or even no user row) and any amount strictly above the ₹2000 cap,
`check_and_lock` fails with `TransactionLimitError` — never
`InsufficientBalanceError` — and produces no new state (no ledger entry,
no balance change). -/
theorem transaction_cap_precedence (s : WalletState) (A : Int) (txn rid desc : String)
    (hA : A > max_transaction) :
    check_and_lock s A txn rid desc = .error .transactionLimit := by
  unfold check_and_lock
  rw [if_pos hA]

/-- Witness for Claim C3: ₹2500 against ₹5000 available still raises
the limit error. -/
theorem transaction_cap_precedence_witness :
    (250000 : Int) > max_transaction ∧
    check_and_lock ⟨some ⟨500000, 0⟩, []⟩ 250000 "txn" "ord" "d" = .error .transactionLimit :=
  ⟨by decide, transaction_cap_precedence ⟨some ⟨500000, 0⟩, []⟩ 250000 "txn" "ord" "d" (by decide)⟩

/-- Claim C8 (implicit): the cap check precedes the user lookup.  Above
the cap, `check_and_lock` raises `TransactionLimitError` even when the
user row does not exist; conversely a user-not-found `WalletError` can
only arise for amounts at or below the cap. -/
theorem cap_check_precedes_user_lookup (L : List LedgerEntry) (A : Int) (txn rid desc : String) :
    (A > max_transaction →
      check_and_lock ⟨none, L⟩ A txn rid desc = .error .transactionLimit) ∧
    (∀ s : WalletState, check_and_lock s A txn rid desc = .error .walletError →
      A ≤ max_transaction) := by
  constructor
  · intro h
    unfold check_and_lock
    rw [if_pos h]
  · intro s h
    by_contra hgt
    push_neg at hgt
    unfold check_and_lock at h
    rw [if_pos hgt] at h
    simp at h

/-- Witness for Claim C8: an over-cap amount on a missing user raises
the limit error; a user-not-found error did come from an under-cap
amount. -/
theorem cap_check_precedes_user_lookup_witness :
    check_and_lock ⟨none, []⟩ 250000 "t" "r" "d" = .error .transactionLimit ∧
    check_and_lock ⟨none, []⟩ 100 "t" "r" "d" = .error .walletError ∧
    (100 : Int) ≤ max_transaction :=
  ⟨(cap_check_precedes_user_lookup [] 250000 "t" "r" "d").1 (by decide),
   by rfl,
   (cap_check_precedes_user_lookup [] 100 "t" "r" "d").2 ⟨none, []⟩ (by rfl)⟩

/-- Counterexample for Claim C6 as stated: at the claimed input the
validation does fail on the daily rule, but the message is "Daily
spending limit of ₹5000.0 would be exceeded", which does not contain
the (case-sensitive) substring "daily" — only the capitalised "Daily"
(the repository's own test lowercases the message before checking). -/
theorem daily_cap_message_counterexample :
    (validate_transaction 100000 1000000 0 450000).1 = false ∧
    (validate_transaction 100000 1000000 0 450000).2 =
      some "Daily spending limit of ₹5000.0 would be exceeded" ∧
    strContains "Daily spending limit of ₹5000.0 would be exceeded" "daily" = false := by
  refine ⟨by rfl, by rfl, by rfl⟩

/-- Claim C6 (amended): `validate_transaction(₹1000, ₹10000, 0, ₹4500)`
returns invalid with the daily-limit reason, whose message contains
"daily" case-insensitively (it reads "Daily spending limit ...");
generally, whenever the cap and availability rules pass but
`daily_spent + amount` exceeds the ₹5000 daily limit, validation fails
with exactly that message, and `validate_transaction` is a pure
function without side effects. -/
theorem daily_cap_rule (amount current_balance locked_balance daily_spent : Int)
    (hcap : amount ≤ max_single_transaction)
    (havail : amount ≤ current_balance - locked_balance)
    (hdaily : daily_spent + amount > daily_limit) :
    validate_transaction amount current_balance locked_balance daily_spent =
      (false, some "Daily spending limit of ₹5000.0 would be exceeded") ∧
    strContains "Daily spending limit of ₹5000.0 would be exceeded" "Daily" = true := by
  constructor
  · unfold validate_transaction
    rw [if_neg (not_lt.mpr hcap)]
    dsimp only
    rw [if_neg (not_lt.mpr havail), if_pos hdaily]
    rfl
  · rfl

/-- Witness for Claim C6 (amended) at the claimed concrete input. -/
theorem daily_cap_rule_witness :
    validate_transaction 100000 1000000 0 450000 =
      (false, some "Daily spending limit of ₹5000.0 would be exceeded") :=
  (daily_cap_rule 100000 1000000 0 450000 (by decide) (by decide) (by decide)).1

/-!
### Claim theorems about the intent engine
-/

/-- Claim C4: confidence gating boundary.  `needs_clarification` is
true iff `confidence_score < 0.85` (so exactly 0.85 yields false), and
`should_refuse` is true iff `confidence_score < 0.90` and the intent
type is UNKNOWN (so a non-UNKNOWN intent at 0.75 is not refused); the
two concrete boundary cases are included as conjuncts. -/
theorem confidence_gating_boundary (intent : IntentSchema) :
    (needs_clarification intent = true ↔ intent.confidence_score < 0.85) ∧
    (should_refuse intent = true ↔
      (intent.confidence_score < 0.90 ∧ intent.intent_type = "UNKNOWN")) ∧
    needs_clarification { intent_type := "ORDER_MEDICINE", confidence_score := 0.85 } = false ∧
    should_refuse { intent_type := "ORDER_MEDICINE", confidence_score := 0.75 } = false := by
  refine ⟨?_, ?_,
    by norm_num [needs_clarification, CONFIDENCE_THRESHOLD],
    by norm_num [should_refuse, SAFE_REFUSAL_THRESHOLD, IntentType.UNKNOWN]; decide⟩
  · simp [needs_clarification, CONFIDENCE_THRESHOLD]
  · simp [should_refuse, SAFE_REFUSAL_THRESHOLD, IntentType.UNKNOWN]

/-- Claim C10 (implicit): `MedicineResolver.resolve` is shape-preserving
and user-independent: its output is the same for any two `user_id`
values (it depends only on the names list), and it contains exactly one
record per input name in input order, each either matched (with
name/sku/price) or flagged unmatched needing clarification
(`List.Forall₂` gives the length equality and the positional
correspondence). -/
theorem resolve_shape_and_user_independence (names : List String) (u1 u2 : String) :
    resolve names u1 = resolve names u2 ∧
    List.Forall₂ resolvedEntryOk names (resolve names u1) := by
  constructor
  · induction names with
    | nil => rfl
    | cons n rest ih => simp [resolve, ih]
  · induction names with
    | nil => exact List.Forall₂.nil
    | cons n rest ih =>
      refine List.Forall₂.cons ?_ ih
      unfold resolveOne
      cases h : medicine_map.find? (fun kv => containsSub (n.data.map Char.toLower) kv.1.data) with
      | none => simp [resolvedEntryOk]
      | some kv => simp [resolvedEntryOk]

theorem process_chunk_speech (d : SilenceDetector) (t : ℚ) (sil : Bool) :
    (d.process_chunk t sil).1.speech_detected = (d.speech_detected || !sil) := by
  cases sil with
  | false => simp [SilenceDetector.process_chunk]
  | true =>
    simp only [SilenceDetector.process_chunk, if_true]
    split
    · simp
    · split <;> simp

theorem process_chunk_start (d : SilenceDetector) (t : ℚ) (sil : Bool) :
    (d.process_chunk t sil).1.silence_start = startStep d.silence_start (t, sil) := by
  cases sil with
  | false => simp [SilenceDetector.process_chunk, startStep]
  | true =>
    simp only [SilenceDetector.process_chunk, if_true, startStep]
    split
    · simp
    · split <;> simp

theorem process_chunk_params (d : SilenceDetector) (t : ℚ) (sil : Bool) :
    (d.process_chunk t sil).1.min_silence_duration = d.min_silence_duration ∧
    (d.process_chunk t sil).1.max_pause_duration = d.max_pause_duration := by
  cases sil with
  | false => simp [SilenceDetector.process_chunk]
  | true =>
    simp only [SilenceDetector.process_chunk, if_true]
    split
    · simp
    · split <;> simp

theorem runDetector_speech (tr : List (ℚ × Bool)) : ∀ d : SilenceDetector,
    (runDetector d tr).1.speech_detected =
      (d.speech_detected || tr.any (fun p => !p.2)) := by
  induction tr with
  | nil => intro d; simp [runDetector]
  | cons p rest ih =>
    intro d
    obtain ⟨t, sil⟩ := p
    simp [runDetector, ih, process_chunk_speech, Bool.or_assoc]

theorem runDetector_start (tr : List (ℚ × Bool)) : ∀ d : SilenceDetector,
    (runDetector d tr).1.silence_start = startFold d.silence_start tr := by
  induction tr with
  | nil => intro d; simp [runDetector, startFold]
  | cons p rest ih =>
    intro d
    obtain ⟨t, sil⟩ := p
    simp [runDetector, ih, startFold, process_chunk_start]

theorem runDetector_params (tr : List (ℚ × Bool)) : ∀ d : SilenceDetector,
    (runDetector d tr).1.min_silence_duration = d.min_silence_duration ∧
    (runDetector d tr).1.max_pause_duration = d.max_pause_duration := by
  induction tr with
  | nil => intro d; simp [runDetector]
  | cons p rest ih =>
    intro d
    obtain ⟨t, sil⟩ := p
    have h := process_chunk_params d t sil
    simp [runDetector, (ih _).1, (ih _).2, h.1, h.2]

theorem startFold_all_silent (tr : List (ℚ × Bool)) : ∀ x : ℚ,
    (∀ p ∈ tr, p.2 = true) → startFold (some x) tr = some x := by
  induction tr with
  | nil => intro x _; rfl
  | cons p rest ih =>
    intro x h
    have hp : p.2 = true := h p (List.mem_cons_self p rest)
    simp only [startFold, List.foldl_cons, startStep, hp, if_true, Option.getD_some]
    exact ih x (fun q hq => h q (List.mem_cons_of_mem p hq))

theorem startFold_none_of_all_silent (tr : List (ℚ × Bool))
    (h : ∀ p ∈ tr, p.2 = true) (hn : startFold none tr = none) : tr = [] := by
  cases tr with
  | nil => rfl
  | cons p rest =>
    exfalso
    have hp : p.2 = true := h p (List.mem_cons_self p rest)
    have : startFold none (p :: rest) = some p.1 := by
      simp only [startFold, List.foldl_cons, startStep, hp, if_true, Option.getD_none]
      exact startFold_all_silent rest p.1 (fun q hq => h q (List.mem_cons_of_mem p hq))
    rw [this] at hn
    exact Option.noConfusion hn

theorem startFold_some_decomp (tr : List (ℚ × Bool)) : ∀ t0 : ℚ,
    startFold none tr = some t0 →
    ∃ pre rest, tr = pre ++ (t0, true) :: rest ∧ (∀ p ∈ rest, p.2 = true) ∧
      startFold none pre = none := by
  induction tr using List.reverseRecOn with
  | nil => intro t0 h; exact absurd h (by simp [startFold])
  | append_singleton l q ih =>
    intro t0 h
    have hsplit : startFold none (l ++ [q]) = startStep (startFold none l) q := by
      simp [startFold, List.foldl_append]
    rw [hsplit] at h
    by_cases hq : q.2 = true
    · rw [startStep] at h
      rw [hq] at h
      simp only [if_true] at h
      cases hl : startFold none l with
      | none =>
        rw [hl] at h
        simp only [Option.getD_none, Option.some.injEq] at h
        refine ⟨l, [], ?_, by simp, hl⟩
        have : q = (t0, true) := by
          obtain ⟨q1, q2⟩ := q
          simp only at hq h
          rw [hq, h]
        rw [this]
      | some t1 =>
        rw [hl] at h
        simp only [Option.getD_some, Option.some.injEq] at h
        obtain ⟨pre, rest, hl', hrest, hpre⟩ := ih t1 hl
        refine ⟨pre, rest ++ [q], ?_, ?_, hpre⟩
        · rw [hl', ← h]
          simp
        · intro p hp
          rcases List.mem_append.mp hp with hp | hp
          · exact hrest p hp
          · rw [List.mem_singleton.mp hp]; exact hq
    · rw [startStep] at h
      rw [Bool.not_eq_true] at hq
      rw [hq] at h
      simp at h

theorem startFold_none_last_speech (pre : List (ℚ × Bool))
    (h : startFold none pre = none) :
    pre = [] ∨ ∃ pre' t1, pre = pre' ++ [(t1, false)] := by
  induction pre using List.reverseRecOn with
  | nil => exact Or.inl rfl
  | append_singleton l q _ =>
    right
    have hsplit : startFold none (l ++ [q]) = startStep (startFold none l) q := by
      simp [startFold, List.foldl_append]
    rw [hsplit] at h
    rw [startStep] at h
    by_cases hq : q.2 = true
    · rw [hq] at h; simp at h
    · rw [Bool.not_eq_true] at hq
      refine ⟨l, q.1, ?_⟩
      have : q = (q.1, false) := by
        obtain ⟨q1, q2⟩ := q
        simp only at hq
        rw [hq]
      rw [← this]

theorem process_chunk_silent_out (d : SilenceDetector) (t : ℚ) :
    (d.process_chunk t true).2 =
      (if d.speech_detected = true ∧ t - d.silence_start.getD t ≥ d.min_silence_duration then
        ⟨true, t - d.silence_start.getD t, false⟩
      else if t - d.silence_start.getD t ≥ d.max_pause_duration then
        ⟨false, t - d.silence_start.getD t, true⟩
      else ⟨false, t - d.silence_start.getD t, false⟩ : ChunkDecision) := by
  unfold SilenceDetector.process_chunk
  rw [if_pos rfl]
  dsimp only
  split_ifs <;> rfl

theorem process_chunk_speech_out (d : SilenceDetector) (t : ℚ) :
    (d.process_chunk t false).2 = ⟨false, 0, false⟩ := rfl

/-- Claim C7: silence-completion boundary.  Feeding any timed chunk
sequence to a freshly constructed detector (defaults 1.5 s / 3.0 s):
`is_complete` is signalled only on a silent sample, only after some
speech sample was observed, and only when the current maximal silent
run (which began directly after the last speech sample, or at the start
of the trace) already spans at least 1.5 seconds — so never at an
earlier point of the same silent run; `should_prompt` is signalled only
on a silent sample of an all-silent trace whose silence has persisted
at least 3.0 seconds before any speech was observed. -/
theorem silence_completion_boundary (tr : List (ℚ × Bool)) (t : ℚ) (sil : Bool) :
    (((runDetector defaultDetector tr).1.process_chunk t sil).2.is_complete = true →
      sil = true ∧ (∃ p ∈ tr, p.2 = false) ∧
      ∃ pre rest t0, tr = pre ++ (t0, true) :: rest ∧
        (∀ p ∈ rest, p.2 = true) ∧
        (pre = [] ∨ ∃ pre' t1, pre = pre' ++ [(t1, false)]) ∧
        t - t0 ≥ 1.5) ∧
    (((runDetector defaultDetector tr).1.process_chunk t sil).2.should_prompt = true →
      sil = true ∧ (∀ p ∈ tr, p.2 = true) ∧
      ∃ t0 rest, tr = (t0, true) :: rest ∧ t - t0 ≥ 3.0) := by
  have hsd := runDetector_speech tr defaultDetector
  have hst := runDetector_start tr defaultDetector
  have hpar := runDetector_params tr defaultDetector
  rw [show defaultDetector.speech_detected = false from rfl, Bool.false_or] at hsd
  rw [show defaultDetector.silence_start = (none : Option ℚ) from rfl] at hst
  have hmin : (runDetector defaultDetector tr).1.min_silence_duration = (1.5 : ℚ) :=
    hpar.1.trans rfl
  have hmax : (runDetector defaultDetector tr).1.max_pause_duration = (3.0 : ℚ) :=
    hpar.2.trans rfl
  constructor
  · intro hc
    cases sil with
    | false =>
      rw [process_chunk_speech_out] at hc
      exact absurd hc (by simp)
    | true =>
      refine ⟨rfl, ?_, ?_⟩
      · rw [process_chunk_silent_out] at hc
        split_ifs at hc with h1
        obtain ⟨p, hp, hneg⟩ := List.any_eq_true.mp (hsd ▸ h1.1)
        exact ⟨p, hp, by simpa using hneg⟩
      · rw [process_chunk_silent_out] at hc
        split_ifs at hc with h1
        cases hsf : startFold none tr with
        | none =>
          exfalso
          have hdur := h1.2
          rw [hst, hsf, Option.getD_none, sub_self, hmin] at hdur
          norm_num at hdur
        | some t0 =>
          obtain ⟨pre, rest, htr, hrest, hpre⟩ := startFold_some_decomp tr t0 hsf
          refine ⟨pre, rest, t0, htr, hrest, startFold_none_last_speech pre hpre, ?_⟩
          have hdur := h1.2
          rw [hst, hsf, Option.getD_some, hmin] at hdur
          exact hdur
  · intro hc
    cases sil with
    | false =>
      rw [process_chunk_speech_out] at hc
      exact absurd hc (by simp)
    | true =>
      rw [process_chunk_silent_out] at hc
      split_ifs at hc with h1 h2
      · have hspeech : (runDetector defaultDetector tr).1.speech_detected = false := by
          by_contra hs
          rw [Bool.not_eq_false] at hs
          refine h1 ⟨hs, ?_⟩
          rw [hmin]
          rw [hmax] at h2
          linarith
        have hall : ∀ p ∈ tr, p.2 = true := by
          intro p hp
          have hanyf : tr.any (fun p => !p.2) = false := by rw [← hsd, hspeech]
          have := List.any_eq_false.mp hanyf p hp
          simpa using this
        refine ⟨rfl, hall, ?_⟩
        cases hsf : startFold none tr with
        | none =>
          exfalso
          have hnil := startFold_none_of_all_silent tr hall hsf
          subst hnil
          rw [hst, hsf, Option.getD_none, sub_self, hmax] at h2
          norm_num at h2
        | some t0 =>
          obtain ⟨pre, rest, htr, hrest, hpre⟩ := startFold_some_decomp tr t0 hsf
          have hpresil : ∀ p ∈ pre, p.2 = true := by
            intro p hp
            exact hall p (htr ▸ List.mem_append_left _ hp)
          have hprenil : pre = [] := startFold_none_of_all_silent pre hpresil hpre
          subst hprenil
          rw [List.nil_append] at htr
          refine ⟨t0, rest, htr, ?_⟩
          rw [hst, hsf, Option.getD_some, hmax] at h2
          exact h2

/-- Witness for Claim C7: speech at time 0, silence from time 1; at
time 3 the silent run spans 2 s ≥ 1.5 s, so completion is signalled and
the theorem's conclusion holds at this concrete trace. -/
theorem silence_completion_boundary_witness :
    (true = true) ∧ (∃ p ∈ [((0 : ℚ), false), (1, true)], p.2 = false) ∧
    ∃ pre rest t0, [((0 : ℚ), false), (1, true)] = pre ++ (t0, true) :: rest ∧
      (∀ p ∈ rest, p.2 = true) ∧
      (pre = [] ∨ ∃ pre' t1, pre = pre' ++ [(t1, false)]) ∧
      (3 : ℚ) - t0 ≥ 1.5 :=
  (silence_completion_boundary [((0 : ℚ), false), (1, true)] 3 true).1
    (by norm_num [runDetector, SilenceDetector.process_chunk, defaultDetector])

/-- Claim C9 (implicit): `AudioBuffer.is_silence` is total and fails
closed.  It is a total Lean function (the Python body is wrapped in
`try/except: return False`), and on any undecodable chunk — odd byte
length at 16-bit width, where `np.frombuffer` raises, or the empty
chunk, whose mean is NaN — it returns `false`; consequently such a
chunk reaches the silence detector as non-silence and can never yield
`is_complete = true` on its own. -/
theorem is_silence_total_fails_closed (b : AudioBuffer) (chunk : List Nat)
    (th : Option ℚ) (d : SilenceDetector) (t : ℚ) :
    (b.sample_width = 2 → chunk.length % 2 = 1 →
      b.is_silence chunk th = false ∧
      (d.process_chunk t (b.is_silence chunk th)).2.is_complete = false) ∧
    b.is_silence [] th = false := by
  constructor
  · intro hw hodd
    have hfalse : b.is_silence chunk th = false := by
      unfold AudioBuffer.is_silence
      dsimp only
      rw [if_pos hw, if_pos (by omega : chunk.length % 2 ≠ 0)]
    refine ⟨hfalse, ?_⟩
    rw [hfalse, process_chunk_speech_out]
  · unfold AudioBuffer.is_silence
    dsimp only
    by_cases hw : b.sample_width = 2
    · rw [if_pos hw, if_neg (by simp : ¬ (List.length ([] : List Nat) % 2 ≠ 0))]
      rfl
    · rw [if_neg hw]
      rfl

/-- Witness for Claim C9: a three-byte chunk on the default 16-bit
buffer is rejected as non-silence and does not complete the turn. -/
theorem is_silence_total_fails_closed_witness :
    ({} : AudioBuffer).is_silence [0, 1, 2] none = false ∧
    ((({} : SilenceDetector).process_chunk 0
        (({} : AudioBuffer).is_silence [0, 1, 2] none)).2.is_complete = false) :=
  (is_silence_total_fails_closed {} [0, 1, 2] none {} 0).1 rfl rfl

/-- A substitution scan over a string with no match anywhere is the
identity, for any fuel. -/
theorem gsubAux_id (pat : RE) (tok : List Char) (s : List Char)
    (h : hasMatch pat s = false) : ∀ fuel, gsubAux pat tok fuel s = s := by
  induction s with
  | nil =>
    intro fuel
    cases fuel with
    | zero => rfl
    | succ f => rfl
  | cons c rest ih =>
    intro fuel
    rw [hasMatch] at h
    rw [Bool.or_eq_false_iff] at h
    have hhead : (remainders pat (c :: rest)).head? = none := by
      have := h.1
      rw [Bool.not_eq_false'] at this
      rw [List.isEmpty_iff] at this
      rw [this]
      rfl
    cases fuel with
    | zero => rfl
    | succ f =>
      rw [gsubAux, hhead]
      rw [ih h.2 f]

/-- `re.sub` leaves a string with no pattern occurrence unchanged. -/
theorem gsub_id (pat : RE) (tok : String) (s : List Char)
    (h : hasMatch pat s = false) : gsub pat tok s = s :=
  gsubAux_id pat tok.data s h s.length

/-- Counterexample for Claim C5 as stated: `redact` does not cover all
five defined PII kinds.  The postal-code "110001" matches the defined
pincode pattern yet is left unchanged (no `[PINCODE_REDACTED]` token is
ever produced, as the pincode pattern is defined but never applied);
and the bare 10-digit phone number "9876543210" is also left unchanged
(the phone pattern requires a literal `9` followed by ten further
digits, so it matches `+91`/`91`/`9`-prefixed numbers, not bare
10-digit ones). -/
theorem redact_counterexample :
    redact "pin 110001 ok" = "pin 110001 ok" ∧
    hasPincodeMatch "pin 110001 ok".data = true ∧
    strContains (redact "pin 110001 ok") "PINCODE_REDACTED" = false ∧
    redact "9876543210" = "9876543210" :=
  ⟨rfl, rfl, rfl, rfl⟩

/-- Claim C5 (amended): `redact` applies exactly four of the five
defined patterns — phone (a `+91`/`91`/`9`-prefixed digit run, not a
bare 10-digit number), the 12-digit national-ID pattern, the
10-character tax-ID pattern and email — replacing each occurrence with
its fixed `[<KIND>_REDACTED]` token, in that order, and leaves every
string without an occurrence of those four patterns unchanged; the
pincode pattern is defined but never applied, so postal codes are not
redacted. -/
theorem redact_amended :
    (∀ s : List Char,
      hasMatch phonePattern s = false → hasMatch aadhaarPattern s = false →
      hasMatch panPattern s = false → hasMatch emailPattern s = false →
      redact ⟨s⟩ = ⟨s⟩) ∧
    redact "+91-9876543210" = "[PHONE_REDACTED]" ∧
    redact "1234 5678 9012" = "[AADHAAR_REDACTED]" ∧
    redact "ABCDE1234F" = "[PAN_REDACTED]" ∧
    redact "a@b.co" = "[EMAIL_REDACTED]" ∧
    hasMatch phonePattern "9876543210".data = false ∧
    (hasPincodeMatch "110001".data = true ∧ redact "110001" = "110001") := by
  refine ⟨?_, rfl, rfl, rfl, rfl, rfl, rfl, rfl⟩
  intro s h1 h2 h3 h4
  show (⟨gsub emailPattern "[EMAIL_REDACTED]"
    (gsub panPattern "[PAN_REDACTED]"
      (gsub aadhaarPattern "[AADHAAR_REDACTED]"
        (gsub phonePattern "[PHONE_REDACTED]" s)))⟩ : String) = ⟨s⟩
  rw [gsub_id _ _ _ h1, gsub_id _ _ _ h2, gsub_id _ _ _ h3, gsub_id _ _ _ h4]

/-- Witness for Claim C5 (amended): a PII-free sentence passes through
`redact` unchanged. -/
theorem redact_amended_witness : redact "hello doctor" = "hello doctor" :=
  redact_amended.1 "hello doctor".data rfl rfl rfl rfl

/-- The lock lookup on a fresh ledger extended with one lock entry
finds exactly that entry. -/
theorem filter_lock_append_fresh (L : List LedgerEntry) (txn : String)
    (hfresh : ∀ e ∈ L, e.transaction_id ≠ txn) (e : LedgerEntry)
    (he1 : e.transaction_id = txn) (he2 : e.transaction_type = TransactionType.LOCK) :
    (L ++ [e]).filter (fun x =>
      x.transaction_id == txn && x.transaction_type == TransactionType.LOCK) = [e] := by
  rw [List.filter_append, filter_lock_of_fresh L txn hfresh]
  simp [List.filter, he1, he2]

/-- Claim C2: financially neutral failure path.  For any confirmation
context whose `total_price` lock succeeds (amount within cap and
available balance), if the pharmacy adapter reports a non-success
result or raises, `execute_confirmed_order` returns `success = false`,
calls `auto_refund` exactly once with the transaction id returned by
`check_and_lock`, and leaves `current_balance` unchanged with
`locked_balance` restored to its pre-attempt value. -/
theorem execute_failed_order_refunds (C LK A : Int) (L : List LedgerEntry)
    (txn rid onum : String) (pharmacy : PharmacyOutcome)
    (hfresh : ∀ e ∈ L, e.transaction_id ≠ txn)
    (hcap : A ≤ max_transaction) (havail : A ≤ C - LK)
    (hfail : (∃ oid err, pharmacy = .result false oid err) ∨
      (∃ msg, pharmacy = .raises msg)) :
    ∃ (res : OrchestratorResult) (s2 : WalletState),
      execute_confirmed_order ⟨some ⟨C, LK⟩, L⟩ A txn rid onum pharmacy =
        .ok (res, s2, [txn]) ∧
      res.success = false ∧ s2.user = some ⟨C, LK⟩ := by
  have hlock : check_and_lock ⟨some ⟨C, LK⟩, L⟩ A txn rid ("Order " ++ onum) =
      .ok (⟨some ⟨C, LK + A⟩,
        L ++ [⟨txn, A, .LOCK, "ORDER", some rid, C,
          "Lock for: " ++ ("Order " ++ onum)⟩]⟩, txn) := by
    unfold check_and_lock
    rw [if_neg (not_lt.mpr hcap)]
    dsimp only
    rw [if_neg (show ¬(C - LK < A) by omega)]
  have hrefund : ∀ reason : String,
      auto_refund ⟨some ⟨C, LK + A⟩,
        L ++ [⟨txn, A, .LOCK, "ORDER", some rid, C,
          "Lock for: " ++ ("Order " ++ onum)⟩]⟩ txn reason =
      .ok ⟨some ⟨C, LK + A - A⟩,
        (L ++ [⟨txn, A, .LOCK, "ORDER", some rid, C,
          "Lock for: " ++ ("Order " ++ onum)⟩]) ++
        [⟨txn, A, .REFUND, "ORDER", some rid, C, "Auto-refund: " ++ reason⟩]⟩ := by
    intro reason
    unfold auto_refund scalarOneOrNoneLock
    dsimp only
    rw [filter_lock_append_fresh L txn hfresh _ rfl rfl]
    rfl
  have huser : (some (⟨C, LK + A - A⟩ : User)) = some (⟨C, LK⟩ : User) := by
    simp
  rcases hfail with ⟨oid, err, hp⟩ | ⟨msg, hp⟩
  · subst hp
    have hmain : execute_confirmed_order ⟨some ⟨C, LK⟩, L⟩ A txn rid onum
        (.result false oid err) =
        .ok ({ success := false, error := some (err.getD "Unknown pharmacy error") },
          ⟨some ⟨C, LK + A - A⟩,
            (L ++ [⟨txn, A, .LOCK, "ORDER", some rid, C,
              "Lock for: " ++ ("Order " ++ onum)⟩]) ++
            [⟨txn, A, .REFUND, "ORDER", some rid, C,
              "Auto-refund: " ++ (err.getD "Unknown pharmacy error")⟩]⟩, [txn]) := by
      unfold execute_confirmed_order
      rw [hlock]
      dsimp only
      unfold orderFailurePath
      rw [hrefund]
    exact ⟨_, _, hmain, rfl, huser⟩
  · subst hp
    have hmain : execute_confirmed_order ⟨some ⟨C, LK⟩, L⟩ A txn rid onum
        (.raises msg) =
        .ok ({ success := false, error := some msg },
          ⟨some ⟨C, LK + A - A⟩,
            (L ++ [⟨txn, A, .LOCK, "ORDER", some rid, C,
              "Lock for: " ++ ("Order " ++ onum)⟩]) ++
            [⟨txn, A, .REFUND, "ORDER", some rid, C,
              "Auto-refund: " ++ msg⟩]⟩, [txn]) := by
      unfold execute_confirmed_order
      rw [hlock]
      dsimp only
      unfold orderFailurePath
      rw [hrefund]
    exact ⟨_, _, hmain, rfl, huser⟩

/-- Witness for Claim C2: ₹50 order against a ₹1000 balance; the
pharmacy call raises; exactly one refund with the lock's id and the
balances are restored. -/
theorem execute_failed_order_refunds_witness :
    ∃ (res : OrchestratorResult) (s2 : WalletState),
      execute_confirmed_order ⟨some ⟨100000, 0⟩, []⟩ 5000 "t9" "r9" "ORD1"
          (.raises "network down") =
        .ok (res, s2, ["t9"]) ∧
      res.success = false ∧ s2.user = some ⟨100000, 0⟩ :=
  execute_failed_order_refunds 100000 0 5000 [] "t9" "r9" "ORD1" (.raises "network down")
    (by simp) (by decide) (by decide) (Or.inr ⟨"network down", rfl⟩)

end Sahayak
